import Mathlib

/-!
Verification development for the resume-analyzer backend
(`src/backend/main.py` of Devashya/ai-resume-analyzer).

The Python service is shallowly embedded:
* Python strings are Lean `String`s; slicing and `strip()` operate on the
  character list (`String.data`), matching Python's character semantics.
* `json.loads` is modelled by an executable recursive-descent parser
  `jparse` over a `JVal` value type covering the JSON subset exchanged by
  this service (objects, arrays, strings without escapes, integers,
  booleans, null).  Validity of a response text means `jparse` succeeds.
* The remote LLM completion call is an oracle input `RemoteOutcome`:
  either it returns a text or it raises (any exception, including a
  missing/None content field).
* The scratch-upload directory is a small association-list file system
  `FS`; the two PDF/DOCX extraction libraries are black-box oracle values.
* Python exceptions are `Except PyExc`; FastAPI's `HTTPException` is the
  `PyExc.http` constructor and, like in Python, is a *subclass* of
  `Exception`, so a blanket `except Exception` clause catches it.
-/

/-- Characters stripped by Python `str.strip()` (whitespace). -/
def stripChars (l : List Char) : List Char :=
  ((l.dropWhile Char.isWhitespace).reverse.dropWhile Char.isWhitespace).reverse

/-- Python `s.strip()`. -/
def pyStrip (s : String) : String := ⟨stripChars s.data⟩

/-- Python `s[n:]` (character based). -/
def pyDrop (s : String) (n : Nat) : String := ⟨s.data.drop n⟩

/-- Python `s[:-n]` for `n ≤ len s` (character based). -/
def pyDropRight (s : String) (n : Nat) : String := ⟨s.data.take (s.data.length - n)⟩

/-- Python `s[:n]` (character based). -/
def pyTake (s : String) (n : Nat) : String := ⟨s.data.take n⟩

/-- Python `s.startswith(p)`. -/
def strStartsWith (s p : String) : Bool := p.data.isPrefixOf s.data

/-- Python `s.endswith(p)`. -/
def strEndsWith (s p : String) : Bool := p.data.isSuffixOf s.data

/-- Python `s.lower()` (ASCII case folding suffices for the extensions used). -/
def pyLower (s : String) : String := ⟨s.data.map Char.toLower⟩

/-- The extension part of `os.path.splitext(p)`: the substring from the last
dot of the basename, provided some character of the basename strictly before
that dot is not itself a dot (Python's leading-dot rule). -/
def splitextExt (p : String) : String :=
  let basenameRev := p.data.reverse.takeWhile (fun c => c ≠ '/')
  let afterDotRev := basenameRev.takeWhile (fun c => c ≠ '.')
  if afterDotRev.length = basenameRev.length then ""
  else
    let beforeDotRev := basenameRev.drop (afterDotRev.length + 1)
    if beforeDotRev.all (fun c => c = '.') then ""
    else ⟨'.' :: afterDotRev.reverse⟩

/-- Decimal digit character. -/
def digitChar (n : Nat) : Char := Char.ofNat (48 + n)

/-- Fuel-driven decimal rendering of a `Nat`. -/
def natToStrAux : Nat → Nat → List Char → List Char
  | 0, _, acc => acc
  | fuel+1, n, acc =>
    if n < 10 then digitChar n :: acc
    else natToStrAux fuel (n / 10) (digitChar (n % 10) :: acc)

/-- Decimal rendering of a `Nat`, as Python's `str` on a status code. -/
def natToStr (n : Nat) : String := ⟨natToStrAux (n + 1) n []⟩

/-- JSON values (the subset exchanged by this service). -/
inductive JVal where
  | null : JVal
  | bool : Bool → JVal
  | int : Int → JVal
  | str : String → JVal
  | arr : List JVal → JVal
  | obj : List (String × JVal) → JVal

/-- Look a key up in a JSON object (as Python `dict` access on parsed JSON). -/
def JVal.getField : JVal → String → Option JVal
  | .obj fields, k => (fields.find? (fun e => e.1 == k)).map (fun e => e.2)
  | _, _ => none

/-- Skip JSON whitespace. -/
def skipWs (cs : List Char) : List Char := cs.dropWhile Char.isWhitespace

/-- Parse the remainder of a JSON string literal (after the opening quote):
plain characters up to the closing quote, no escapes. -/
def parseStringLit : List Char → Option (String × List Char)
  | [] => none
  | '"' :: r => some ("", r)
  | '\\' :: _ => none
  | c :: r =>
    match parseStringLit r with
    | some (s, r2) => some (⟨c :: s.data⟩, r2)
    | none => none

/-- Parse a nonempty run of decimal digits. -/
def parseDigits (cs : List Char) : Option (Nat × List Char) :=
  let ds := cs.takeWhile Char.isDigit
  if ds.isEmpty then none
  else some (ds.foldl (fun n c => n * 10 + (c.toNat - 48)) 0, cs.drop ds.length)

mutual

/-- Fuel-driven recursive-descent JSON value parser (models `json.loads`). -/
def parseVal : Nat → List Char → Option (JVal × List Char)
  | 0, _ => none
  | fuel+1, cs =>
    match skipWs cs with
    | 'n' :: 'u' :: 'l' :: 'l' :: r => some (.null, r)
    | 't' :: 'r' :: 'u' :: 'e' :: r => some (.bool true, r)
    | 'f' :: 'a' :: 'l' :: 's' :: 'e' :: r => some (.bool false, r)
    | '"' :: r =>
      match parseStringLit r with
      | some (s, r2) => some (.str s, r2)
      | none => none
    | '[' :: r =>
      match skipWs r with
      | ']' :: r2 => some (.arr [], r2)
      | r2 => parseItems fuel r2 []
    | '{' :: r =>
      match skipWs r with
      | '}' :: r2 => some (.obj [], r2)
      | r2 => parseMembers fuel r2 []
    | '-' :: r =>
      match parseDigits r with
      | some (n, r2) => some (.int (-(n : Int)), r2)
      | none => none
    | c :: r =>
      if c.isDigit then
        match parseDigits (c :: r) with
        | some (n, r2) => some (.int (n : Int), r2)
        | none => none
      else none
    | [] => none

/-- Parse the items of a JSON array (after at least one item is required). -/
def parseItems : Nat → List Char → List JVal → Option (JVal × List Char)
  | 0, _, _ => none
  | fuel+1, cs, acc =>
    match parseVal fuel cs with
    | none => none
    | some (v, r) =>
      match skipWs r with
      | ',' :: r2 => parseItems fuel r2 (v :: acc)
      | ']' :: r2 => some (.arr (v :: acc).reverse, r2)
      | _ => none

/-- Parse the members of a JSON object (after at least one member is required). -/
def parseMembers : Nat → List Char → List (String × JVal) → Option (JVal × List Char)
  | 0, _, _ => none
  | fuel+1, cs, acc =>
    match skipWs cs with
    | '"' :: r =>
      match parseStringLit r with
      | none => none
      | some (k, r2) =>
        match skipWs r2 with
        | ':' :: r3 =>
          match parseVal fuel r3 with
          | none => none
          | some (v, r4) =>
            match skipWs r4 with
            | ',' :: r5 => parseMembers fuel r5 ((k, v) :: acc)
            | '}' :: r5 => some (.obj ((k, v) :: acc).reverse, r5)
            | _ => none
        | _ => none
    | _ => none

end

/-- Model of Python `json.loads`: parse a complete JSON document, requiring
the whole input (up to surrounding whitespace) to be consumed. -/
def jparse (s : String) : Option JVal :=
  match parseVal (2 * s.data.length + 8) s.data with
  | some (v, r) => if (skipWs r).isEmpty then some v else none
  | none => none

/-- Outcome of the remote Groq completion call: either the response text
(`chat_completion.choices[0].message.content`) or any raised exception,
carried as its `str(e)` rendering. -/
inductive RemoteOutcome where
  | ok : String → RemoteOutcome
  | err : String → RemoteOutcome

/-- The markdown-fence clean-up applied to every raw model response
(`main.py` lines 104–111, and identically at 173–182 and 243–252):
strip, drop a leading seven-character `` ```json `` marker if present, drop a
leading bare `` ``` `` marker if (still) present, drop a trailing `` ``` ``
marker if present, strip again. -/
def cleanResponse (s : String) : String :=
  let t0 := pyStrip s
  let t1 := if strStartsWith t0 "```json" then pyDrop t0 7 else t0
  let t2 := if strStartsWith t1 "```" then pyDrop t1 3 else t1
  let t3 := if strEndsWith t2 "```" then pyDropRight t2 3 else t2
  pyStrip t3

/-- The fixed fallback analysis returned on `json.JSONDecodeError`
(`main.py` lines 121–129). -/
def analysisFallbackParse : JVal := .obj
  [("overall_score", .int 7),
   ("strengths", .arr [.str "Resume received and processed"]),
   ("weaknesses", .arr [.str "Unable to perform detailed analysis"]),
   ("suggestions", .arr [.str "Please try uploading again"]),
   ("keywords_missing", .arr []),
   ("formatting_feedback", .str "Standard formatting detected"),
   ("summary", .str "Your resume has been received. Please try the analysis again for detailed feedback.")]

/-- The fallback analysis returned on any other exception, embedding
`str(e)[:100]` in the summary (`main.py` lines 132–140). -/
def analysisFallbackError (e : String) : JVal := .obj
  [("overall_score", .int 5),
   ("strengths", .arr [.str "Resume uploaded successfully"]),
   ("weaknesses", .arr [.str "Analysis service temporarily unavailable"]),
   ("suggestions", .arr [.str "Please try again in a moment"]),
   ("keywords_missing", .arr []),
   ("formatting_feedback", .str "Unable to analyze at this time"),
   ("summary", .str ("Error occurred: " ++ pyTake e 100))]

/-- `analyze_resume_with_ai` (`main.py` lines 66–140).  The prompt only
feeds the remote call, so the function's result depends on the remote
outcome: clean the response and parse it; `JSONDecodeError` yields the
parse fallback, any other exception the error fallback. -/
def analyze_resume_with_ai (outcome : RemoteOutcome) : JVal :=
  match outcome with
  | .err e => analysisFallbackError e
  | .ok text =>
    match jparse (cleanResponse text) with
    | some v => v
    | none => analysisFallbackParse

/-- The fixed fallback question set (`main.py` lines 189–209), returned on
any exception, JSON parse errors included (single blanket `except`). -/
def questionsFallback : JVal := .obj
  [("technical_questions", .arr
     [.str "Tell me about your technical skills and experience",
      .str "Describe a challenging technical problem you solved",
      .str "What technologies are you most comfortable with?",
      .str "How do you stay updated with new technologies?",
      .str "Explain a project you're proud of"]),
   ("behavioral_questions", .arr
     [.str "Describe a time you worked on a team project",
      .str "Tell me about a challenge you overcame",
      .str "How do you handle tight deadlines?",
      .str "Describe a time you had to learn something new quickly",
      .str "Tell me about a mistake you made and what you learned"]),
   ("situational_questions", .arr
     [.str "How would you handle conflicting priorities?",
      .str "What would you do if you disagreed with your manager?",
      .str "How would you approach a project with unclear requirements?"])]

/-- `generate_interview_questions` (`main.py` lines 143–209): one blanket
`except Exception` covers both the remote call and JSON parsing. -/
def generate_interview_questions (outcome : RemoteOutcome) : JVal :=
  match outcome with
  | .err _ => questionsFallback
  | .ok text =>
    match jparse (cleanResponse text) with
    | some v => v
    | none => questionsFallback

/-- The fixed fallback evaluation (`main.py` lines 259–267), returned on
any exception; it does not depend on the exception at all. -/
def evaluationFallback : JVal := .obj
  [("score", .int 6),
   ("feedback", .str "Thank you for your answer. Try to provide more specific examples and details."),
   ("suggestions", .arr
     [.str "Include concrete examples from your experience",
      .str "Structure your answer with a clear beginning, middle, and end"]),
   ("strong_points", .arr [.str "You provided a response to the question"])]

/-- The body of `evaluate_answer`'s `try` block (`main.py` lines 230–255):
a raised exception is an `error`, carried as its `str(e)`. -/
def evaluateTryBody (outcome : RemoteOutcome) : Except String JVal :=
  match outcome with
  | .err e => .error e
  | .ok text =>
    match jparse (cleanResponse text) with
    | some v => .ok v
    | none => .error "JSONDecodeError"

/-- `evaluate_answer` (`main.py` lines 212–267).  The result is an
`Except`: an `error` value would mean the Python function raises.  The
single `except Exception` clause converts every exception to the fixed
fallback. -/
def evaluate_answer (question answer : String) (outcome : RemoteOutcome) : Except String JVal :=
  match evaluateTryBody outcome with
  | .ok v => .ok v
  | .error _ => .ok evaluationFallback

/-- An HTTP response: status code and JSON body.  FastAPI renders a raised
`HTTPException` as a body holding a `detail` field. -/
structure HResp where
  status : Nat
  body : JVal

/-- The scratch-upload directory as an association list from path to file
content (uploads are written and read as whole files). -/
abbrev FS := List (String × String)

/-- Delete every entry at a path (`os.remove`). -/
def fsRemove (fs : FS) (p : String) : FS :=
  List.filter (fun e => !(e.1 == p)) fs

/-- `os.path.exists` restricted to the scratch directory. -/
def fsExists (fs : FS) (p : String) : Bool :=
  List.any fs (fun e => e.1 == p)

/-- `open(p, "wb")` followed by a full write: replaces any previous file. -/
def fsWrite (fs : FS) (p c : String) : FS := (p, c) :: fsRemove fs p

/-- Read a whole file, if present. -/
def fsRead (fs : FS) (p : String) : Option String :=
  (List.find? (fun e => e.1 == p) fs).map (fun e => e.2)

/-- Black-box outcomes of the two external extraction libraries (PyPDF2 and
python-docx) on the uploaded document: extracted text or a raised error. -/
structure ExtractOracle where
  pdf : Except String String
  docx : Except String String

/-- `extract_text_from_file` (`main.py` lines 53–63): dispatch on
case-sensitive filename suffixes; the `.txt` branch reads the stored file
verbatim (UTF-8), any other name raises `ValueError("Unsupported file type")`. -/
def extract_text_from_file (fs : FS) (oracle : ExtractOracle)
    (file_path filename : String) : Except String String :=
  if strEndsWith filename ".pdf" then oracle.pdf
  else if strEndsWith filename ".docx" then oracle.docx
  else if strEndsWith filename ".txt" then
    match fsRead fs file_path with
    | some c => .ok c
    | none => .error "No such file or directory"
  else .error "Unsupported file type"

/-- Python exceptions relevant to the endpoints.  `http` is FastAPI's
`HTTPException`, which subclasses `Exception` and is therefore caught by a
blanket `except Exception` clause. -/
inductive PyExc where
  | http : Nat → String → PyExc
  | valueError : String → PyExc

/-- `str(e)`: Starlette renders an `HTTPException` as
`"{status_code}: {detail}"`; a `ValueError` renders as its message. -/
def PyExc.str : PyExc → String
  | .http s d => natToStr s ++ ": " ++ d
  | .valueError m => m

/-- An error response as FastAPI renders a raised `HTTPException`. -/
def http_error (status : Nat) (detail : String) : HResp :=
  ⟨status, .obj [("detail", .str detail)]⟩

/-- `UPLOAD_DIR`-relative scratch path: `os.path.join("uploads", filename)`. -/
def scratch_path (filename : String) : String := "uploads/" ++ filename

/-- `allowed_extensions` (`main.py` line 287). -/
def allowed_extensions : List String := [".pdf", ".docx", ".txt"]

/-- Result of one request: the HTTP response, the scratch directory after
the request, and whether the remote completion call was invoked. -/
structure ReqResult where
  resp : HResp
  fs : FS
  llmCalled : Bool

/-- The `try` block of `upload_resume` (`main.py` lines 302–321): extract,
reject short text by raising `HTTPException(400, ...)`, otherwise analyze
and build the success envelope.  The second component records whether the
remote completion call was reached. -/
def upload_resume_body (fs1 : FS) (filename : String) (oracle : ExtractOracle)
    (remote : RemoteOutcome) : Except PyExc HResp × Bool :=
  match extract_text_from_file fs1 oracle (scratch_path filename) filename with
  | .error e => (.error (.valueError e), false)
  | .ok resume_text =>
    if (pyStrip resume_text).data.length < 50 then
      (.error (.http 400 "Resume appears to be empty or too short"), false)
    else
      (.ok ⟨200, .obj
        [("success", .bool true),
         ("filename", .str filename),
         ("analysis", analyze_resume_with_ai remote),
         ("resume_text", .str (pyTake resume_text 500 ++ "..."))]⟩, true)

/-- The `except Exception` clause of `upload_resume` (`main.py` lines
323–324): every exception — the inner `HTTPException(400)` included — is
re-raised as `HTTPException(500, "Error processing resume: " + str(e))`. -/
def wrap_upload_exc : Except PyExc HResp → HResp
  | .ok r => r
  | .error e => http_error 500 ("Error processing resume: " ++ e.str)

/-- The `finally` clause shared by both upload endpoints (`main.py` lines
326–329 and 355–357): remove the scratch file if it exists. -/
def finally_cleanup (fs : FS) (p : String) : FS :=
  if fsExists fs p then fsRemove fs p else fs

/-- `upload_resume` (`main.py` lines 278–329): validate the lower-cased
extension (before the `try`, so this rejection really is HTTP 400 and no
scratch file is written), persist the upload, run the `try` body, apply the
`except` wrapper and the `finally` cleanup. -/
def upload_resume (fs0 : FS) (filename content : String) (oracle : ExtractOracle)
    (remote : RemoteOutcome) : ReqResult :=
  if allowed_extensions.contains (pyLower (splitextExt filename)) then
    let fs1 := fsWrite fs0 (scratch_path filename) content
    let tr := upload_resume_body fs1 filename oracle remote
    ⟨wrap_upload_exc tr.1, finally_cleanup fs1 (scratch_path filename), tr.2⟩
  else
    ⟨http_error 400
      ("File type not supported. Please upload " ++ String.intercalate ", " allowed_extensions),
     fs0, false⟩

/-- The `try` block of `generate_questions` (`main.py` lines 343–350):
extract (no minimum-length check) and build the success envelope. -/
def generate_questions_body (fs1 : FS) (filename : String) (oracle : ExtractOracle)
    (remote : RemoteOutcome) : Except PyExc HResp × Bool :=
  match extract_text_from_file fs1 oracle (scratch_path filename) filename with
  | .error e => (.error (.valueError e), false)
  | .ok _resume_text =>
    (.ok ⟨200, .obj
      [("success", .bool true),
       ("questions", generate_interview_questions remote)]⟩, true)

/-- The `except Exception` clause of `generate_questions` (`main.py` lines
352–353). -/
def wrap_questions_exc : Except PyExc HResp → HResp
  | .ok r => r
  | .error e => http_error 500 ("Error generating questions: " ++ e.str)

/-- `generate_questions` (`main.py` lines 332–357): no extension
validation; persist, run the `try` body, wrap exceptions, clean up. -/
def generate_questions (fs0 : FS) (filename content : String) (oracle : ExtractOracle)
    (remote : RemoteOutcome) : ReqResult :=
  let fs1 := fsWrite fs0 (scratch_path filename) content
  let tr := generate_questions_body fs1 filename oracle remote
  ⟨wrap_questions_exc tr.1, finally_cleanup fs1 (scratch_path filename), tr.2⟩

/-- `evaluate_answer_endpoint` (`main.py` lines 365–380): wrap
`evaluate_answer` in a success envelope; a raised exception would become
HTTP 500. -/
def evaluate_answer_endpoint (question answer : String) (outcome : RemoteOutcome) : HResp :=
  match evaluate_answer question answer outcome with
  | .ok ev => ⟨200, .obj [("success", .bool true), ("evaluation", ev)]⟩
  | .error e => http_error 500 ("Error evaluating answer: " ++ e)

/-- Does `needle` occur as a contiguous run inside `hay`? -/
def occursIn (needle hay : List Char) : Bool :=
  match hay with
  | [] => needle.isEmpty
  | c :: t => needle.isPrefixOf (c :: t) || occursIn needle t

/-- Modelled from the claim text of the spec (§4.3 step 2): trim, strip at
most ONE leading fence marker — language-tagged or, failing that, bare —
then one trailing marker, then trim.  To be compared with `cleanResponse`,
which is read off the source. -/
def cleanResponseClaim (s : String) : String :=
  let t0 := pyStrip s
  let t1 :=
    if strStartsWith t0 "```json" then pyDrop t0 7
    else if strStartsWith t0 "```" then pyDrop t0 3
    else t0
  let t2 := if strEndsWith t1 "```" then pyDropRight t1 3 else t1
  pyStrip t2

/-- Amended description of the clean-up, matching the source's sequential
(non-exclusive) conditionals: strip a leading `` ```json `` marker, then
additionally a leading bare `` ``` `` marker if one is still present, then
one trailing marker. -/
def cleanResponseAmended (s : String) : String :=
  let t0 := pyStrip s
  let t1 := if strStartsWith t0 "```json" then pyDrop t0 7 else t0
  let t2 := if strStartsWith t1 "```" then pyDrop t1 3 else t1
  let t3 := if strEndsWith t2 "```" then pyDropRight t2 3 else t2
  pyStrip t3

/-- A fixed extraction oracle for concrete runs whose branch never reaches
the external libraries. -/
def defaultOracle : ExtractOracle :=
  ⟨.error "pdf library unused", .error "docx library unused"⟩

/-- A concrete resume text: 78 characters, no surrounding whitespace, so it
passes the 50-character minimum. -/
def longResume : String :=
  "Experienced software engineer with a strong background in distributed systems."

/-- The `overall_score` of the `analysis` object inside a response body. -/
def analysis_overall_score (r : ReqResult) : Option JVal :=
  Option.bind (JVal.getField r.resp.body "analysis") (fun a => JVal.getField a "overall_score")

/-! ## Helper lemmas -/

lemma any_filter_ne (t : List (String × String)) (p : String) :
    List.any (List.filter (fun e => !(e.1 == p)) t) (fun e => e.1 == p) = false := by
  induction t with
  | nil => rfl
  | cons e t ih =>
    rw [List.filter_cons]
    by_cases h : (e.1 == p) = true
    · simp [h, ih]
    · have h' : (e.1 == p) = false := by revert h; cases (e.1 == p) <;> simp
      simp [h', ih]

lemma fsExists_fsRemove (fs : FS) (p : String) : fsExists (fsRemove fs p) p = false :=
  any_filter_ne fs p

lemma fsExists_finally_cleanup (fs : FS) (p : String) :
    fsExists (finally_cleanup fs p) p = false := by
  unfold finally_cleanup
  by_cases h : fsExists fs p = true
  · rw [if_pos h]; exact fsExists_fsRemove fs p
  · rw [if_neg h]
    revert h; cases fsExists fs p <;> simp

lemma head_of_isPrefixOf {c : Char} {cs l : List Char}
    (h : List.isPrefixOf (c :: cs) l = true) : l.head? = some c := by
  cases l with
  | nil => simp [List.isPrefixOf] at h
  | cons d t =>
    simp only [List.isPrefixOf, Bool.and_eq_true, beq_iff_eq] at h
    obtain ⟨h1, -⟩ := h
    subst h1
    rfl

lemma strEndsWith_excl (s p q : String) (c d : Char) (cs ds : List Char)
    (hp : p.data.reverse = c :: cs) (hq : q.data.reverse = d :: ds) (hcd : c ≠ d)
    (h : strEndsWith s p = true) : strEndsWith s q = false := by
  unfold strEndsWith List.isSuffixOf at *
  rw [hp] at h
  cases hq2 : List.isPrefixOf q.data.reverse s.data.reverse with
  | false => rfl
  | true =>
    rw [hq] at hq2
    have e1 := head_of_isPrefixOf h
    have e2 := head_of_isPrefixOf hq2
    rw [e1] at e2
    exact (hcd (Option.some.inj e2)).elim

lemma endsWith_docx_not_pdf {s : String} (h : strEndsWith s ".docx" = true) :
    strEndsWith s ".pdf" = false :=
  strEndsWith_excl s ".docx" ".pdf" 'x' 'f' ['c', 'o', 'd', '.'] ['d', 'p', '.']
    rfl rfl (by decide) h

lemma endsWith_txt_not_pdf {s : String} (h : strEndsWith s ".txt" = true) :
    strEndsWith s ".pdf" = false :=
  strEndsWith_excl s ".txt" ".pdf" 't' 'f' ['x', 't', '.'] ['d', 'p', '.']
    rfl rfl (by decide) h

lemma endsWith_txt_not_docx {s : String} (h : strEndsWith s ".txt" = true) :
    strEndsWith s ".docx" = false :=
  strEndsWith_excl s ".txt" ".docx" 't' 'x' ['x', 't', '.'] ['c', 'o', 'd', '.']
    rfl rfl (by decide) h

/-- Reduction of `upload_resume` on the fully successful path. -/
lemma upload_resume_success (fs0 : FS) (filename content rtext : String)
    (oracle : ExtractOracle) (remote : RemoteOutcome)
    (hext : allowed_extensions.contains (pyLower (splitextExt filename)) = true)
    (hex : extract_text_from_file (fsWrite fs0 (scratch_path filename) content) oracle
        (scratch_path filename) filename = Except.ok rtext)
    (hlen : 50 ≤ (pyStrip rtext).data.length) :
    upload_resume fs0 filename content oracle remote =
      ⟨⟨200, .obj
        [("success", .bool true),
         ("filename", .str filename),
         ("analysis", analyze_resume_with_ai remote),
         ("resume_text", .str (pyTake rtext 500 ++ "..."))]⟩,
       finally_cleanup (fsWrite fs0 (scratch_path filename) content) (scratch_path filename),
       true⟩ := by
  have hnl : ¬ ((pyStrip rtext).data.length < 50) := Nat.not_lt.mpr hlen
  unfold upload_resume upload_resume_body
  rw [hext]
  simp only [if_true, hex, hnl, if_false, wrap_upload_exc]

/-! ## Claims -/

set_option maxHeartbeats 2000000 in
/-- C1: the claim says a sub-50-character (after trimming) extracted text
makes the analyze-resume endpoint return HTTP 400 without invoking the
remote completion call.  The code evaluated at the claimed failing input —
a 10-character `.txt` upload — does skip the remote call, but returns HTTP
500, not 400: the inner `HTTPException(400, "Resume appears to be empty or
too short")` is caught by the endpoint's blanket `except Exception` and
re-raised as `HTTPException(500, ...)`. -/
theorem c1_short_upload_returns_500_and_skips_llm :
    (upload_resume [] "resume.txt" "short text" defaultOracle (.err "unused")).resp.status = 500 ∧
    (upload_resume [] "resume.txt" "short text" defaultOracle (.err "unused")).llmCalled = false ∧
    JVal.getField (upload_resume [] "resume.txt" "short text" defaultOracle (.err "unused")).resp.body "detail" =
      some (.str "Error processing resume: 400: Resume appears to be empty or too short") :=
  ⟨rfl, rfl, rfl⟩

/-- C3 counterexample: on the generic remote-call-failed path the
answer-evaluation fallback is a fixed object, identical for different
errors; it has no `summary` field at all, and its `feedback` text does not
contain the error string — so the claim that it embeds a 100-character
truncation of the error in its summary is false. -/
theorem c3_counterexample :
    evaluate_answer "Why Go?" "Because I like it." (.err "XYZZY remote failure") =
      .ok evaluationFallback ∧
    evaluate_answer "Why Go?" "Because I like it." (.err "completely different error") =
      .ok evaluationFallback ∧
    JVal.getField evaluationFallback "summary" = none ∧
    JVal.getField evaluationFallback "feedback" =
      some (.str "Thank you for your answer. Try to provide more specific examples and details.") ∧
    occursIn "XYZZY".data
      "Thank you for your answer. Try to provide more specific examples and details.".data = false :=
  ⟨rfl, rfl, rfl, rfl, by decide⟩

/-- C3 amended: on the generic remote-call-failed path it is the
resume-analysis variant (not the answer-evaluation variant) that embeds
`str(e)[:100]` in its fallback summary; the answer-evaluation fallback is
the fixed object, independent of the error. -/
theorem c3_amended_error_embedding (e question answer : String) :
    JVal.getField (analyze_resume_with_ai (.err e)) "summary" =
      some (.str ("Error occurred: " ++ pyTake e 100)) ∧
    JVal.getField (analyze_resume_with_ai (.err e)) "overall_score" = some (.int 5) ∧
    evaluate_answer question answer (.err e) = .ok evaluationFallback :=
  ⟨rfl, rfl, rfl⟩

/-- C4 counterexample: the response clean-up does not strip a *single*
leading fence marker — on an input starting with `` ```json``` `` it strips
the language-tagged marker and then also a bare marker.  On
`` ```json```0``` `` the code decodes `0`, while the claimed single-strip
behaviour leaves `` ```0 ``, which is not valid JSON. -/
theorem c4_counterexample :
    jparse (cleanResponse "```json```0```") = some (.int 0) ∧
    jparse (cleanResponseClaim "```json```0```") = none ∧
    cleanResponse "```json```0```" ≠ cleanResponseClaim "```json```0```" :=
  ⟨rfl, rfl, by decide⟩

/-- C4 amended: the clean-up trims whitespace, strips a leading
`` ```json `` marker if present, then additionally strips a leading bare
`` ``` `` marker if one is (still) present, strips a single trailing
`` ``` `` marker, trims again, and JSON-decodes the remainder; in
particular `` ```json\n{"a":1}\n``` `` decodes to the mapping a ↦ 1. -/
theorem c4_fence_stripping_amended :
    (∀ s, cleanResponse s = cleanResponseAmended s) ∧
    jparse (cleanResponse "```json\n\x7b\"a\":1\x7d\n```") = some (.obj [("a", .int 1)]) ∧
    analyze_resume_with_ai (.ok "```json\n\x7b\"a\":1\x7d\n```") = .obj [("a", .int 1)] :=
  ⟨fun _ => rfl, rfl, rfl⟩

/-- C9: `evaluate_answer` never raises — its blanket `except Exception`
converts every exception (remote failure as well as JSON parse failure) to
the fixed fallback with score 6 — so the evaluate-answer endpoint's HTTP
500 branch is unreachable and it always answers HTTP 200 with
`success = true`. -/
theorem c9_evaluate_answer_never_raises (question answer : String)
    (outcome : RemoteOutcome) (e : String) :
    (evaluate_answer question answer outcome).isOk = true ∧
    (evaluate_answer_endpoint question answer outcome).status = 200 ∧
    JVal.getField (evaluate_answer_endpoint question answer outcome).body "success" =
      some (.bool true) ∧
    evaluate_answer question answer (.err e) = .ok evaluationFallback ∧
    JVal.getField evaluationFallback "score" = some (.int 6) := by
  have hv : ∃ v, evaluate_answer question answer outcome = .ok v := by
    cases outcome with
    | err e2 => exact ⟨evaluationFallback, rfl⟩
    | ok t =>
      cases h : jparse (cleanResponse t) with
      | none => exact ⟨evaluationFallback, by simp only [evaluate_answer, evaluateTryBody, h]⟩
      | some v => exact ⟨v, by simp only [evaluate_answer, evaluateTryBody, h]⟩
  obtain ⟨v, hv⟩ := hv
  refine ⟨?_, ?_, ?_, rfl, rfl⟩
  · rw [hv]; rfl
  · unfold evaluate_answer_endpoint; rw [hv]
  · unfold evaluate_answer_endpoint; rw [hv]; rfl

set_option maxHeartbeats 4000000 in
/-- C2 counterexample: a resume-analysis run in which the remote call
raises returns HTTP 200, but the fallback object has `overall_score = 5`,
not the claimed 7 (the score-7 fallback is only used on the
malformed-JSON path). -/
theorem c2_counterexample :
    (upload_resume [] "cv.txt" longResume defaultOracle (.err "network down")).resp.status = 200 ∧
    analysis_overall_score (upload_resume [] "cv.txt" longResume defaultOracle (.err "network down")) =
      some (.int 5) ∧
    analysis_overall_score (upload_resume [] "cv.txt" longResume defaultOracle (.err "network down")) ≠
      some (.int 7) := by
  refine ⟨rfl, rfl, ?_⟩
  intro h
  have h5 : analysis_overall_score
      (upload_resume [] "cv.txt" longResume defaultOracle (.err "network down")) =
      some (JVal.int 5) := rfl
  rw [h5] at h
  injection h with h1
  injection h1 with h2
  exact absurd h2 (by decide)

/-- C2 amended: when the resume-analysis pipeline reaches the AI call,
the endpoint returns HTTP 200 in both failure modes, but with two
different fixed fallbacks: `overall_score = 5` (error fallback) when the
remote call raises, and `overall_score = 7` (parse fallback) when the
returned text is not valid JSON. -/
theorem c2_fallback_amended (fs0 : FS) (filename content rtext : String)
    (oracle : ExtractOracle) (remote : RemoteOutcome)
    (hext : allowed_extensions.contains (pyLower (splitextExt filename)) = true)
    (hex : extract_text_from_file (fsWrite fs0 (scratch_path filename) content) oracle
        (scratch_path filename) filename = Except.ok rtext)
    (hlen : 50 ≤ (pyStrip rtext).data.length) :
    (∀ e, remote = .err e →
      (upload_resume fs0 filename content oracle remote).resp.status = 200 ∧
      analysis_overall_score (upload_resume fs0 filename content oracle remote) = some (.int 5) ∧
      JVal.getField (upload_resume fs0 filename content oracle remote).resp.body "analysis" =
        some (analysisFallbackError e)) ∧
    (∀ t, remote = .ok t → jparse (cleanResponse t) = none →
      (upload_resume fs0 filename content oracle remote).resp.status = 200 ∧
      analysis_overall_score (upload_resume fs0 filename content oracle remote) = some (.int 7) ∧
      JVal.getField (upload_resume fs0 filename content oracle remote).resp.body "analysis" =
        some analysisFallbackParse) := by
  constructor
  · rintro e rfl
    have hr := upload_resume_success fs0 filename content rtext oracle (.err e) hext hex hlen
    rw [hr]
    exact ⟨rfl, rfl, rfl⟩
  · rintro t rfl hj
    have hr := upload_resume_success fs0 filename content rtext oracle (.ok t) hext hex hlen
    have ha : analyze_resume_with_ai (.ok t) = analysisFallbackParse := by
      simp only [analyze_resume_with_ai, hj]
    rw [hr, ha]
    exact ⟨rfl, rfl, rfl⟩

set_option maxHeartbeats 4000000 in
/-- C2 witness: concrete runs through both failure modes of the amended
claim, with all hypotheses discharged on concrete inputs. -/
theorem c2_fallback_amended_witness :
    (upload_resume [] "cv.txt" longResume defaultOracle (.err "boom")).resp.status = 200 ∧
    analysis_overall_score (upload_resume [] "cv.txt" longResume defaultOracle (.err "boom")) =
      some (.int 5) ∧
    (upload_resume [] "cv.txt" longResume defaultOracle (.ok "not json")).resp.status = 200 ∧
    analysis_overall_score (upload_resume [] "cv.txt" longResume defaultOracle (.ok "not json")) =
      some (.int 7) := by
  have h1 := (c2_fallback_amended [] "cv.txt" longResume longResume defaultOracle (.err "boom")
    rfl rfl (by decide)).1 "boom" rfl
  have h2 := (c2_fallback_amended [] "cv.txt" longResume longResume defaultOracle (.ok "not json")
    rfl rfl (by decide)).2 "not json" rfl rfl
  exact ⟨h1.1, h1.2.1, h2.1, h2.2.1⟩

/-- C5: starting from a scratch directory without this request's scratch
file, the scratch file is absent again after the request completes, on
every exit path of both file-upload endpoints (success, validation
failure, extraction failure — the `finally` block removes it, and the
rejected-extension path never writes it). -/
theorem c5_scratch_file_always_deleted (fs0 : FS) (filename content : String)
    (oracle : ExtractOracle) (remote : RemoteOutcome)
    (h : fsExists fs0 (scratch_path filename) = false) :
    fsExists (upload_resume fs0 filename content oracle remote).fs (scratch_path filename) = false ∧
    fsExists (generate_questions fs0 filename content oracle remote).fs (scratch_path filename) = false := by
  constructor
  · unfold upload_resume
    by_cases hc : allowed_extensions.contains (pyLower (splitextExt filename)) = true
    · rw [if_pos hc]
      exact fsExists_finally_cleanup _ _
    · rw [if_neg hc]
      exact h
  · unfold generate_questions
    exact fsExists_finally_cleanup _ _

/-- C5 witness: a concrete mixed run (remote call failing) of both
endpoints leaves the scratch directory without the scratch file. -/
theorem c5_scratch_file_always_deleted_witness :
    fsExists (upload_resume [] "cv.txt" longResume defaultOracle (.err "x")).fs
      (scratch_path "cv.txt") = false ∧
    fsExists (generate_questions [] "cv.txt" longResume defaultOracle (.err "x")).fs
      (scratch_path "cv.txt") = false :=
  c5_scratch_file_always_deleted [] "cv.txt" longResume defaultOracle (.err "x") rfl

/-- C6: a filename whose lower-cased extension is not one of
`.pdf, .docx, .txt` is rejected with HTTP 400, the detail message lists
the allowed extensions, no scratch file is written (the directory is
unchanged), and the remote call is not made. -/
theorem c6_unsupported_extension_rejected (fs0 : FS) (filename content : String)
    (oracle : ExtractOracle) (remote : RemoteOutcome)
    (h : allowed_extensions.contains (pyLower (splitextExt filename)) = false) :
    (upload_resume fs0 filename content oracle remote).resp.status = 400 ∧
    JVal.getField (upload_resume fs0 filename content oracle remote).resp.body "detail" =
      some (.str "File type not supported. Please upload .pdf, .docx, .txt") ∧
    (upload_resume fs0 filename content oracle remote).fs = fs0 ∧
    (upload_resume fs0 filename content oracle remote).llmCalled = false := by
  have hr : upload_resume fs0 filename content oracle remote =
      ⟨http_error 400 "File type not supported. Please upload .pdf, .docx, .txt", fs0, false⟩ := by
    unfold upload_resume
    rw [h]
    rfl
  rw [hr]
  exact ⟨rfl, rfl, rfl, rfl⟩

/-- C6 witness: uploading `file.xyz` is rejected as claimed. -/
theorem c6_unsupported_extension_rejected_witness :
    (upload_resume [] "file.xyz" "hello" defaultOracle (.err "u")).resp.status = 400 ∧
    JVal.getField (upload_resume [] "file.xyz" "hello" defaultOracle (.err "u")).resp.body "detail" =
      some (.str "File type not supported. Please upload .pdf, .docx, .txt") ∧
    (upload_resume [] "file.xyz" "hello" defaultOracle (.err "u")).fs = [] ∧
    (upload_resume [] "file.xyz" "hello" defaultOracle (.err "u")).llmCalled = false :=
  c6_unsupported_extension_rejected [] "file.xyz" "hello" defaultOracle (.err "u") rfl

/-- C7: the extraction dispatcher selects the PDF extractor for names
ending in `.pdf`, the DOCX extractor for names ending in `.docx`, a
verbatim text read for names ending in `.txt`, and fails with the
unsupported-format error for every other name. -/
theorem c7_extraction_dispatch (fs : FS) (oracle : ExtractOracle) (file_path filename c : String) :
    (strEndsWith filename ".pdf" = true →
      extract_text_from_file fs oracle file_path filename = oracle.pdf) ∧
    (strEndsWith filename ".docx" = true →
      extract_text_from_file fs oracle file_path filename = oracle.docx) ∧
    (strEndsWith filename ".txt" = true → fsRead fs file_path = some c →
      extract_text_from_file fs oracle file_path filename = .ok c) ∧
    (strEndsWith filename ".pdf" = false → strEndsWith filename ".docx" = false →
      strEndsWith filename ".txt" = false →
      extract_text_from_file fs oracle file_path filename = .error "Unsupported file type") := by
  refine ⟨?_, ?_, ?_, ?_⟩
  · intro h
    unfold extract_text_from_file
    rw [h]
    rfl
  · intro h
    unfold extract_text_from_file
    rw [endsWith_docx_not_pdf h, h]
    rfl
  · intro h hread
    unfold extract_text_from_file
    rw [endsWith_txt_not_pdf h, endsWith_txt_not_docx h, h, hread]
    rfl
  · intro h1 h2 h3
    unfold extract_text_from_file
    rw [h1, h2, h3]
    rfl

/-- C7 witness: the dispatcher evaluated on one concrete filename of each
kind. -/
theorem c7_extraction_dispatch_witness :
    extract_text_from_file [] ⟨.ok "PDF TEXT", .error "docx unused"⟩ "uploads/cv.pdf" "cv.pdf" =
      .ok "PDF TEXT" ∧
    extract_text_from_file [] ⟨.error "pdf unused", .ok "DOCX TEXT"⟩ "uploads/cv.docx" "cv.docx" =
      .ok "DOCX TEXT" ∧
    extract_text_from_file [("uploads/cv.txt", "hello resume")] defaultOracle "uploads/cv.txt" "cv.txt" =
      .ok "hello resume" ∧
    extract_text_from_file [] defaultOracle "uploads/cv.xyz" "cv.xyz" =
      .error "Unsupported file type" := by
  refine ⟨?_, ?_, ?_, ?_⟩
  · exact (c7_extraction_dispatch [] ⟨.ok "PDF TEXT", .error "docx unused"⟩
      "uploads/cv.pdf" "cv.pdf" "").1 rfl
  · exact (c7_extraction_dispatch [] ⟨.error "pdf unused", .ok "DOCX TEXT"⟩
      "uploads/cv.docx" "cv.docx" "").2.1 rfl
  · exact (c7_extraction_dispatch [("uploads/cv.txt", "hello resume")] defaultOracle
      "uploads/cv.txt" "cv.txt" "hello resume").2.2.1 rfl rfl
  · exact (c7_extraction_dispatch [] defaultOracle "uploads/cv.xyz" "cv.xyz" "").2.2.2 rfl rfl rfl

/-- C8: on the fully successful path the upload-resume endpoint returns
an envelope with the success flag, the original filename, the analysis
object, and the extracted text truncated to its first 500 characters with
a trailing ellipsis marker appended. -/
theorem c8_success_envelope (fs0 : FS) (filename content rtext : String)
    (oracle : ExtractOracle) (remote : RemoteOutcome)
    (hext : allowed_extensions.contains (pyLower (splitextExt filename)) = true)
    (hex : extract_text_from_file (fsWrite fs0 (scratch_path filename) content) oracle
        (scratch_path filename) filename = Except.ok rtext)
    (hlen : 50 ≤ (pyStrip rtext).data.length) :
    (upload_resume fs0 filename content oracle remote).resp.status = 200 ∧
    JVal.getField (upload_resume fs0 filename content oracle remote).resp.body "success" =
      some (.bool true) ∧
    JVal.getField (upload_resume fs0 filename content oracle remote).resp.body "filename" =
      some (.str filename) ∧
    JVal.getField (upload_resume fs0 filename content oracle remote).resp.body "analysis" =
      some (analyze_resume_with_ai remote) ∧
    JVal.getField (upload_resume fs0 filename content oracle remote).resp.body "resume_text" =
      some (.str (pyTake rtext 500 ++ "...")) := by
  have hr := upload_resume_success fs0 filename content rtext oracle remote hext hex hlen
  rw [hr]
  exact ⟨rfl, rfl, rfl, rfl, rfl⟩

set_option maxHeartbeats 4000000 in
/-- C8 witness: the success envelope on a concrete 78-character `.txt`
upload. -/
theorem c8_success_envelope_witness :
    (upload_resume [] "cv.txt" longResume defaultOracle (.err "x")).resp.status = 200 ∧
    JVal.getField (upload_resume [] "cv.txt" longResume defaultOracle (.err "x")).resp.body "success" =
      some (.bool true) ∧
    JVal.getField (upload_resume [] "cv.txt" longResume defaultOracle (.err "x")).resp.body "filename" =
      some (.str "cv.txt") ∧
    JVal.getField (upload_resume [] "cv.txt" longResume defaultOracle (.err "x")).resp.body "analysis" =
      some (analyze_resume_with_ai (.err "x")) ∧
    JVal.getField (upload_resume [] "cv.txt" longResume defaultOracle (.err "x")).resp.body "resume_text" =
      some (.str (pyTake longResume 500 ++ "...")) :=
  c8_success_envelope [] "cv.txt" longResume longResume defaultOracle (.err "x")
    rfl rfl (by decide)

/-- C10: a filename accepted by the lower-casing extension validation but
matching no case-sensitive dispatcher suffix (for example `resume.PDF`)
makes the request fail with HTTP 500 from the extraction error path,
without the remote call being made. -/
theorem c10_case_mismatch_gives_500 (fs0 : FS) (filename content : String)
    (oracle : ExtractOracle) (remote : RemoteOutcome)
    (hext : allowed_extensions.contains (pyLower (splitextExt filename)) = true)
    (hpdf : strEndsWith filename ".pdf" = false)
    (hdocx : strEndsWith filename ".docx" = false)
    (htxt : strEndsWith filename ".txt" = false) :
    (upload_resume fs0 filename content oracle remote).resp.status = 500 ∧
    (upload_resume fs0 filename content oracle remote).llmCalled = false ∧
    JVal.getField (upload_resume fs0 filename content oracle remote).resp.body "detail" =
      some (.str "Error processing resume: Unsupported file type") := by
  have hr : upload_resume fs0 filename content oracle remote =
      ⟨http_error 500 "Error processing resume: Unsupported file type",
       finally_cleanup (fsWrite fs0 (scratch_path filename) content) (scratch_path filename),
       false⟩ := by
    unfold upload_resume upload_resume_body extract_text_from_file
    rw [hext, hpdf, hdocx, htxt]
    rfl
  rw [hr]
  exact ⟨rfl, rfl, rfl⟩

/-- C10 witness: uploading `resume.PDF` passes validation but reaches the
HTTP 500 extraction error path. -/
theorem c10_case_mismatch_gives_500_witness :
    (upload_resume [] "resume.PDF" "pdf bytes" defaultOracle (.err "u")).resp.status = 500 ∧
    (upload_resume [] "resume.PDF" "pdf bytes" defaultOracle (.err "u")).llmCalled = false ∧
    JVal.getField (upload_resume [] "resume.PDF" "pdf bytes" defaultOracle (.err "u")).resp.body "detail" =
      some (.str "Error processing resume: Unsupported file type") :=
  c10_case_mismatch_gives_500 [] "resume.PDF" "pdf bytes" defaultOracle (.err "u")
    rfl rfl rfl rfl
